import Mathlib

/-!
# Verification of the chatbot builder/deployer core (`main.py`)

Shallow embedding of the repository's core logic: the per-bot agent
(`BotInstance`), the process-wide registry (`bots` dict guarded by
`bots_lock`), local JSON persistence of histories, the remote memory-store
client, and the request handlers (`create_bot`, `deploy_bot`, `bot_chat`,
`bot_history`, `list_bots`).

Modelling conventions:
* Python's mutable state is passed explicitly; each handler body that runs
  under a lock is one Lean function application (the critical section is a
  single atomic step of the model).
* External collaborators are oracles passed as function arguments:
  the transformers text-generation pipeline is `Option Pipeline` (`None`
  when the model failed to load), HTTP calls to the memory server are
  `RemotePost` / `RemoteGet`.  An `Except.error` result of an oracle models
  the Python call raising an exception.
* A raised Python exception is an `Except.error`; an `HTTPException` is the
  `ApiError.http status detail` constructor, any other uncaught exception is
  `ApiError.exn msg`.
* `json.dump` / `json.load` on the history lists are modelled by an
  executable codec (`serializeHistory` / `parseHistory`) for the exact
  JSON fragment the code produces (arrays of `{"role": .., "text": ..}`
  objects).  `indent=2` only changes inter-token whitespace, which is
  ignored here; the escaping of `"` and `\` is modelled, other escapes do
  not affect the round-trip behaviour being verified.
* The local `bots/` directory is a string-keyed blob store `LocalFS`;
  `fsWrite` prepends and `fsLookup` takes the first hit, giving overwrite
  semantics.
-/

/-- Role of one history entry: the Python code only ever stores the strings
`"user"` and `"bot"`. -/
inductive Role where
  | user : Role
  | bot : Role
  deriving DecidableEq, Repr

/-- One conversation turn entry, `{"role": .., "text": ..}` in `main.py`. -/
structure HistoryEntry where
  role : Role
  text : String
  deriving DecidableEq, Repr

/-- `BotConfig` pydantic model (name, persona, max_length).  `max_length` is
modelled as `Nat`: only non-negative values occur in the code paths in
scope. -/
structure BotConfig where
  name : String
  persona : String
  max_length : Nat
  deriving DecidableEq, Repr

/-- The bound text-generation capability: given the full prompt and
`max_length`, returns the first sequence's `generated_text`, or raises
(`Except.error`).  This is the external `transformers` pipeline object. -/
abbrev Pipeline := String → Nat → Except String String

/-- `BotInstance`: config, optional pipeline (`None` when the model failed
to load), and the mutable history list.  The per-instance `threading.Lock`
is modelled by `chat` being a single atomic step. -/
structure BotInstance where
  cfg : BotConfig
  pipeline : Option Pipeline
  history : List HistoryEntry

/-- `BotInstance.__init__`: empty history; `_load_model` either binds a
pipeline or (catching the load exception) leaves it `None` — the outcome is
the `loadModel` argument. -/
def BotInstance.init (cfg : BotConfig) (loadModel : Option Pipeline) : BotInstance :=
  { cfg := cfg, pipeline := loadModel, history := [] }

/-- The fixed fallback reply of `BotInstance.chat`. -/
def fallbackReply : String := "Model not available."

/-- The `full_prompt` f-string of `BotInstance.chat`. -/
def fullPrompt (persona prompt : String) : String :=
  persona ++ "\nUser: " ++ prompt ++ "\nAssistant:"

/-- `BotInstance.chat`.  Returns the reply (or the uncaught exception of the
pipeline invocation) together with the post-state.  Note that the user entry
is appended *before* the pipeline is invoked, so an invocation exception
leaves the user entry behind. -/
def BotInstance.chat (inst : BotInstance) (prompt : String) :
    Except String String × BotInstance :=
  let inst1 := { inst with history := inst.history ++ [⟨Role.user, prompt⟩] }
  match inst.pipeline with
  | none =>
      (Except.ok fallbackReply,
        { inst1 with history := inst1.history ++ [⟨Role.bot, fallbackReply⟩] })
  | some p =>
      match p (fullPrompt inst.cfg.persona prompt) inst.cfg.max_length with
      | Except.error e => (Except.error e, inst1)
      | Except.ok txt =>
          let reply := txt.trim
          (Except.ok reply,
            { inst1 with history := inst1.history ++ [⟨Role.bot, reply⟩] })

/-- `BotInstance.get_history`: `list(self.history)` — a snapshot copy; in
the immutable model this is the history value itself. -/
def BotInstance.get_history (inst : BotInstance) : List HistoryEntry :=
  inst.history

/-! ## JSON codec for the persisted history blobs

`persist_local_history` uses `json.dump(history, f, ...)` and
`load_local_history` uses `json.load`.  The fragment produced is a JSON
array of two-key objects with string values; `"` and `\` in the values are
escaped. -/

/-- JSON string-escape of one character (the escapes relevant to the data
actually stored: `"` and `\`). -/
def escChar (c : Char) : List Char :=
  if c = '"' ∨ c = '\\' then ['\\', c] else [c]

/-- JSON string-escape of a character list. -/
def escBody : List Char → List Char
  | [] => []
  | c :: cs => escChar c ++ escBody cs

/-- A JSON string literal: quote, escaped body, quote. -/
def quoteString (s : String) : String :=
  "\"" ++ String.mk (escBody s.data) ++ "\""

/-- The wire form of a `Role`. -/
def roleStr : Role → String
  | Role.user => "user"
  | Role.bot => "bot"

/-- Serialized form of one history entry,
`\x7b"role": "..", "text": ".."\x7d`. -/
def serializeEntry (e : HistoryEntry) : String :=
  "\x7b\"role\": " ++ quoteString (roleStr e.role) ++ ", \"text\": "
    ++ quoteString e.text ++ "\x7d"

/-- Comma-space join, as Python's default `json` item separator. -/
def joinComma : List String → String
  | [] => ""
  | [s] => s
  | s :: rest => s ++ ", " ++ joinComma rest

/-- Serialized form of a history: a JSON array of entries. -/
def serializeHistory (h : List HistoryEntry) : String :=
  "[" ++ joinComma (h.map serializeEntry) ++ "]"

/-- Scanner for a JSON string body; the `Bool` records whether the previous
character was an unconsumed backslash (the next character is then taken
literally). -/
def parseJStringSt : Bool → List Char → Option (List Char × List Char)
  | _, [] => none
  | true, d :: ds =>
    match parseJStringSt false ds with
    | some (s, rest) => some (d :: s, rest)
    | none => none
  | false, c :: cs =>
    if c = '"' then some ([], cs)
    else if c = '\\' then parseJStringSt true cs
    else
      match parseJStringSt false cs with
      | some (s, rest) => some (c :: s, rest)
      | none => none

/-- Parse a JSON string body (after the opening quote) up to the closing
quote, undoing the escapes; returns the decoded characters and the rest of
the input. -/
def parseJString (input : List Char) : Option (List Char × List Char) :=
  parseJStringSt false input

/-- Consume an exact literal token from the input. -/
def dropLit : List Char → List Char → Option (List Char)
  | [], input => some input
  | _ :: _, [] => none
  | t :: ts, c :: cs => if c = t then dropLit ts cs else none

/-- Decode a role string. -/
def decodeRole (s : String) : Option Role :=
  if s = "user" then some Role.user
  else if s = "bot" then some Role.bot
  else none

/-- Parse one serialized history entry. -/
def parseEntry (input : List Char) : Option (HistoryEntry × List Char) :=
  match dropLit "\x7b\"role\": \"".data input with
  | none => none
  | some r1 =>
    match parseJString r1 with
    | none => none
    | some (roleChars, r2) =>
      match decodeRole (String.mk roleChars) with
      | none => none
      | some role =>
        match dropLit ", \"text\": \"".data r2 with
        | none => none
        | some r3 =>
          match parseJString r3 with
          | none => none
          | some (textChars, r4) =>
            match dropLit "\x7d".data r4 with
            | none => none
            | some r5 => some (⟨role, String.mk textChars⟩, r5)

/-- Parse a non-empty comma-separated entry sequence followed by `]`;
`fuel` bounds the number of entries. -/
def parseEntriesAux : Nat → List Char → Option (List HistoryEntry × List Char)
  | 0, _ => none
  | fuel + 1, input =>
    match parseEntry input with
    | none => none
    | some (e, rest) =>
      match dropLit "]".data rest with
      | some r => some ([e], r)
      | none =>
        match dropLit ", ".data rest with
        | none => none
        | some r2 =>
          match parseEntriesAux fuel r2 with
          | none => none
          | some (es, r) => some (e :: es, r)

/-- `json.load` of a history blob: parses the JSON array produced by
`serializeHistory`, failing (the raised `JSONDecodeError`) on anything
else. -/
def parseHistory (s : String) : Except String (List HistoryEntry) :=
  match dropLit "[".data s.data with
  | none => Except.error "CorruptData"
  | some body =>
    if body = "]".data then Except.ok []
    else
      match parseEntriesAux body.length body with
      | some (es, rest) =>
          if rest = [] then Except.ok es else Except.error "CorruptData"
      | none => Except.error "CorruptData"

/-! ## Local persistence (`bots/` directory) -/

/-- `DATA_DIR = "bots"`. -/
def DATA_DIR : String := "bots"

/-- The local file store: path to content.  Newest write first. -/
abbrev LocalFS := List (String × String)

/-- `open(path, "w")` + write: prepend, so that lookup sees the newest. -/
def fsWrite (fs : LocalFS) (path content : String) : LocalFS :=
  (path, content) :: fs

/-- `os.path.exists` + read: first (newest) entry for the path. -/
def fsLookup : LocalFS → String → Option String
  | [], _ => none
  | (p, c) :: rest, path => if p = path then some c else fsLookup rest path

/-- `os.path.join(DATA_DIR, f"...name...history.json")`. -/
def historyPath (name : String) : String :=
  DATA_DIR ++ "/" ++ name ++ ".history.json"

/-- `os.path.join(DATA_DIR, f"...name...bot.json")`. -/
def configPath (name : String) : String :=
  DATA_DIR ++ "/" ++ name ++ ".bot.json"

/-- `persist_local_history`: serialize and overwrite the blob. -/
def persist_local_history (fs : LocalFS) (name : String)
    (history : List HistoryEntry) : LocalFS :=
  fsWrite fs (historyPath name) (serializeHistory history)

/-- `load_local_history`: empty list when no blob exists; `json.load`
otherwise, whose parse failure propagates as an exception. -/
def load_local_history (fs : LocalFS) (name : String) :
    Except String (List HistoryEntry) :=
  match fsLookup fs (historyPath name) with
  | some content => parseHistory content
  | none => Except.ok []

/-- The whitespace characters of Python's `str.strip()` (the ASCII subset,
which covers the names in scope). -/
def isSpaceChar (c : Char) : Bool :=
  c == ' ' || c == '\t' || c == '\n' || c == '\r' || c == '\x0b' || c == '\x0c'

/-- Python's `str.strip()`: drop leading and trailing whitespace. -/
def pyStrip (s : String) : String :=
  String.mk (((s.data.dropWhile isSpaceChar).reverse.dropWhile isSpaceChar).reverse)

/-! ## Remote memory-store client

HTTP calls are oracles.  `RemotePost name content` models
`requests.post(f"...MEMORY_URL.../ml/save", data=..., files=...)` with the
logical key `name` and uploaded bytes `content`; an `Except.error` is the
call raising.  `RemoteGet filename` models
`requests.get(f"...MEMORY_URL.../ml/load/...filename...")`, returning
`(status_code, body)` or raising. -/

abbrev RemotePost := String → String → Except String (Bool × String)

abbrev RemoteGet := String → Except String (Nat × String)

/-- Serialized `cfg.dict()` as written by `json.dump` in
`save_bot_to_memory`. -/
def serializeConfig (cfg : BotConfig) : String :=
  "\x7b\"name\": " ++ quoteString cfg.name ++ ", \"persona\": "
    ++ quoteString cfg.persona ++ ", \"max_length\": "
    ++ toString cfg.max_length ++ "\x7d"

/-- Decimal value of a digit run. -/
def digitsToNat (l : List Char) : Nat :=
  l.foldl (fun acc c => acc * 10 + (c.toNat - 48)) 0

/-- Parse a non-empty digit run into a `Nat`. -/
def parseNatChars (input : List Char) : Option (Nat × List Char) :=
  let digits := input.takeWhile Char.isDigit
  if digits = [] then none
  else some (digitsToNat digits, input.dropWhile Char.isDigit)

/-- `json.loads` of a config blob followed by pydantic validation
(`BotConfig(**cfg_data)`), folded into one parser for the fragment the
system itself writes. -/
def parseConfig (s : String) : Except String BotConfig :=
  match dropLit "\x7b\"name\": \"".data s.data with
  | none => Except.error "CorruptData"
  | some r1 =>
    match parseJString r1 with
    | none => Except.error "CorruptData"
    | some (nameChars, r2) =>
      match dropLit ", \"persona\": \"".data r2 with
      | none => Except.error "CorruptData"
      | some r3 =>
        match parseJString r3 with
        | none => Except.error "CorruptData"
        | some (personaChars, r4) =>
          match dropLit ", \"max_length\": ".data r4 with
          | none => Except.error "CorruptData"
          | some r5 =>
            match parseNatChars r5 with
            | none => Except.error "CorruptData"
            | some (n, r6) =>
              if r6 = "\x7d".data then
                Except.ok ⟨String.mk nameChars, String.mk personaChars, n⟩
              else Except.error "CorruptData"

/-- `save_bot_to_memory`: writes the config file locally, posts it to the
memory server, and catches every exception, returning `(False, str(e))`
instead of raising.  Result: the `(ok, detail)` pair and the updated local
store. -/
def save_bot_to_memory (post : RemotePost) (fs : LocalFS) (cfg : BotConfig) :
    (Bool × String) × LocalFS :=
  let filename := cfg.name ++ ".bot.json"
  let content := serializeConfig cfg
  let fs1 := fsWrite fs (configPath cfg.name) content
  match post filename content with
  | Except.ok (ok, text) => ((ok, text), fs1)
  | Except.error e => ((false, e), fs1)

/-- `load_bot_from_memory`: GET the config blob; non-200 and every
exception (network or parse) become `(None, detail)`. -/
def load_bot_from_memory (get : RemoteGet) (name : String) :
    Option BotConfig × Option String :=
  let filename := name ++ ".bot.json"
  match get filename with
  | Except.error e => (none, some e)
  | Except.ok (status, content) =>
    if status ≠ 200 then (none, some ("memory returned " ++ toString status))
    else
      match parseConfig content with
      | Except.error e => (none, some e)
      | Except.ok cfg => (some cfg, none)

/-! ## The registry (`bots` dict under `bots_lock`) and request handlers -/

/-- The process-wide `bots` dict: name to instance, in insertion order. -/
abbrev Registry := List (String × BotInstance)

/-- `bots.get(name)` / `name in bots`. -/
def Registry.find : Registry → String → Option BotInstance
  | [], _ => none
  | (k, v) :: rest, name => if k = name then some v else Registry.find rest name

/-- `bots[name] = inst` for a fresh name (both call sites check absence
first): append in insertion order. -/
def Registry.insert (reg : Registry) (name : String) (inst : BotInstance) :
    Registry :=
  reg ++ [(name, inst)]

/-- In-place mutation of the instance object registered under `name`
(Python object identity: `inst.chat` mutates the dict's value). -/
def Registry.update : Registry → String → BotInstance → Registry
  | [], _, _ => []
  | (k, v) :: rest, name, inst =>
    if k = name then (name, inst) :: rest
    else (k, v) :: Registry.update rest name inst

/-- An HTTP-level error (`HTTPException(status, detail)`) or an uncaught
Python exception escaping the handler. -/
inductive ApiError where
  | http : Nat → String → ApiError
  | exn : String → ApiError
  deriving DecidableEq, Repr

/-- Request body of `POST /create_bot` (the `CreateReq` pydantic model). -/
structure CreateReq where
  name : String
  persona : String
  max_length : Nat
  deriving DecidableEq, Repr

/-- Response of `create_bot`:
`\x7b"created": .., "saved_to_memory": .., "memory_resp": ..\x7d`. -/
structure CreateResp where
  created : String
  saved_to_memory : Bool
  memory_resp : String
  deriving DecidableEq, Repr

/-- `create_bot` handler.  `name = req.name.strip()`; empty name is a 400;
the membership check, instance construction, history seeding and insert all
happen under `bots_lock` (one atomic step here); the config upload happens
after the lock and never rolls anything back.  A history parse failure
propagates before the insert. -/
def create_bot (post : RemotePost) (loadModel : Option Pipeline)
    (reg : Registry) (fs : LocalFS) (req : CreateReq) :
    Except ApiError CreateResp × Registry × LocalFS :=
  let name := pyStrip req.name
  if name = "" then (Except.error (ApiError.http 400 "name required"), reg, fs)
  else if (Registry.find reg name).isSome then
    (Except.error (ApiError.http 400 "bot already exists"), reg, fs)
  else
    let cfg : BotConfig := ⟨name, req.persona, req.max_length⟩
    let inst0 := BotInstance.init cfg loadModel
    match load_local_history fs name with
    | Except.error e => (Except.error (ApiError.exn e), reg, fs)
    | Except.ok h =>
      let inst := { inst0 with history := h }
      let reg1 := Registry.insert reg name inst
      let sres := save_bot_to_memory post fs cfg
      (Except.ok ⟨name, sres.1.1, sres.1.2⟩, reg1, sres.2)

/-- Response of `deploy_bot`. -/
inductive DeployResp where
  | already_deployed : String → DeployResp
  | deployed : String → DeployResp
  deriving DecidableEq, Repr

/-- `deploy_bot` handler.  The whole body runs under `bots_lock`: an
already-registered name returns immediately (before any remote call); an
absent config is a 404; a history parse failure propagates before the
insert.  The local store is read but never written. -/
def deploy_bot (get : RemoteGet) (loadModel : Option Pipeline)
    (reg : Registry) (fs : LocalFS) (name : String) :
    Except ApiError DeployResp × Registry :=
  if (Registry.find reg name).isSome then
    (Except.ok (DeployResp.already_deployed name), reg)
  else
    match load_bot_from_memory get name with
    | (some cfg, _) =>
      let inst0 := BotInstance.init cfg loadModel
      match load_local_history fs name with
      | Except.error e => (Except.error (ApiError.exn e), reg)
      | Except.ok h =>
        (Except.ok (DeployResp.deployed name),
          Registry.insert reg name { inst0 with history := h })
    | (none, err) =>
      (Except.error (ApiError.http 404
        ("bot config not found in memory: "
          ++ (match err with | some e => e | none => "None"))), reg)

/-- `GET /bots`. -/
def list_bots (reg : Registry) : List String :=
  reg.map Prod.fst

/-- `POST /bot/\x7bname\x7d/chat` handler.  `body` is
`body.get("message")` (`none` when absent or the body is not a dict);
`""` is falsy like `None`.  The lookup runs under `bots_lock`; the chat
turn runs under the instance lock and its exception propagates after the
user entry is committed; the local persist follows; the remote push is a
bare `try/except: pass` whose outcome is discarded entirely. -/
def bot_chat (push : RemotePost) (reg : Registry) (fs : LocalFS)
    (name : String) (message : Option String) :
    Except ApiError String × Registry × LocalFS :=
  match message with
  | none => (Except.error (ApiError.http 400 "message required"), reg, fs)
  | some msg =>
    if msg = "" then (Except.error (ApiError.http 400 "message required"), reg, fs)
    else
      match Registry.find reg name with
      | none => (Except.error (ApiError.http 404 "bot not deployed"), reg, fs)
      | some inst =>
        match inst.chat msg with
        | (Except.error e, inst1) =>
          (Except.error (ApiError.exn e), Registry.update reg name inst1, fs)
        | (Except.ok reply, inst1) =>
          let reg1 := Registry.update reg name inst1
          let fs1 := persist_local_history fs name inst1.get_history
          let fs2 := fsWrite fs1 (historyPath name)
            (serializeHistory inst1.get_history)
          match push (name ++ ".history.json") (serializeHistory inst1.get_history) with
          | Except.ok _ => (Except.ok reply, reg1, fs2)
          | Except.error _ => (Except.ok reply, reg1, fs2)

/-- `GET /bot/\x7bname\x7d/history` handler. -/
def bot_history (reg : Registry) (name : String) :
    Except ApiError (List HistoryEntry) :=
  match Registry.find reg name with
  | none => Except.error (ApiError.http 404 "bot not deployed")
  | some inst => Except.ok inst.get_history

/-! ## Derived runs used to state the history-ordering property -/

/-- Run a sequence of `chat` calls; `none` when one of them raises. -/
def runChats : BotInstance → List String → Option (List String × BotInstance)
  | inst, [] => some ([], inst)
  | inst, p :: ps =>
    match inst.chat p with
    | (Except.ok r, inst1) =>
      match runChats inst1 ps with
      | some (rs, inst2) => some (r :: rs, inst2)
      | none => none
    | (Except.error _, _) => none

/-- The per-turn history shape: for each call, its user entry immediately
followed by its bot entry. -/
def turnList : List (String × String) → List HistoryEntry
  | [] => []
  | (p, r) :: rest => ⟨Role.user, p⟩ :: ⟨Role.bot, r⟩ :: turnList rest


theorem strData_append (a b : String) : (a ++ b).data = a.data ++ b.data := rfl

theorem strMkData (l : List Char) : (String.mk l).data = l := rfl

theorem strMk_data (s : String) : String.mk s.data = s := rfl

theorem dropLit_prefix (tok rest : List Char) : dropLit tok (tok ++ rest) = some rest := by
  induction tok with
  | nil => rfl
  | cons t ts ih => simp [dropLit, ih]

theorem parseJString_escBody (s rest : List Char) :
    parseJString (escBody s ++ '"' :: rest) = some (s, rest) := by
  unfold parseJString
  induction s with
  | nil => rfl
  | cons c cs ih =>
    by_cases hc : c = '"' ∨ c = '\\'
    · have h1 : escBody (c :: cs) = '\\' :: c :: escBody cs := by
        simp [escBody, escChar, hc]
      rw [h1, List.cons_append, List.cons_append]
      have h2 : parseJStringSt false ('\\' :: c :: (escBody cs ++ '"' :: rest)) =
          match parseJStringSt false (escBody cs ++ '"' :: rest) with
          | some (s, r) => some (c :: s, r)
          | none => none := rfl
      rw [h2, ih]
    · have hq : ¬ c = '"' := fun h => hc (Or.inl h)
      have hb : ¬ c = '\\' := fun h => hc (Or.inr h)
      have h1 : escBody (c :: cs) = c :: escBody cs := by
        simp [escBody, escChar, hc]
      rw [h1, List.cons_append, parseJStringSt, if_neg hq, if_neg hb, ih]

theorem decodeRole_roleStr (r : Role) : decodeRole (roleStr r) = some r := by
  cases r <;> rfl

theorem parseEntry_serialize (e : HistoryEntry) (rest : List Char) :
    parseEntry ((serializeEntry e).data ++ rest) = some (e, rest) := by
  obtain ⟨role, text⟩ := e
  have h1 : (serializeEntry ⟨role, text⟩).data ++ rest =
      "\x7b\"role\": \"".data ++ (escBody (roleStr role).data ++ '"' ::
        (", \"text\": \"".data ++ (escBody text.data ++ '"' :: ('\x7d' :: rest)))) := by
    simp only [serializeEntry, quoteString, strData_append, strMkData, List.append_assoc]
    rfl
  rw [h1]
  simp only [parseEntry, dropLit_prefix, parseJString_escBody, strMk_data,
    decodeRole_roleStr]
  have h2 : dropLit "\x7d".data ('\x7d' :: rest) = some rest := by
    simp [dropLit]
  rw [h2]

theorem parseEntriesAux_serialize (h : List HistoryEntry) :
    ∀ (e : HistoryEntry) (rest : List Char) (fuel : Nat),
      (e :: h).length ≤ fuel →
      parseEntriesAux fuel
        ((joinComma ((e :: h).map serializeEntry)).data ++ ']' :: rest)
        = some (e :: h, rest) := by
  induction h with
  | nil =>
    intro e rest fuel hfuel
    cases fuel with
    | zero => simp at hfuel
    | succ f =>
      have hj : joinComma ([e].map serializeEntry) = serializeEntry e := rfl
      rw [hj]
      have hdrop : dropLit "]".data (']' :: rest) = some rest := by simp [dropLit]
      simp only [parseEntriesAux, parseEntry_serialize, hdrop]
  | cons e2 h' ih =>
    intro e rest fuel hfuel
    cases fuel with
    | zero => simp at hfuel
    | succ f =>
      have hf' : (e2 :: h').length ≤ f := by
        simp only [List.length_cons] at hfuel ⊢
        omega
      have hjoin : (joinComma ((e :: e2 :: h').map serializeEntry)).data =
          (serializeEntry e).data ++ (", ".data ++
            (joinComma ((e2 :: h').map serializeEntry)).data) := by
        simp only [List.map_cons, joinComma, strData_append, List.append_assoc]
      rw [hjoin, List.append_assoc, List.append_assoc]
      have hnone : dropLit [']']
          ([',', ' '] ++ ((joinComma ((e2 :: h').map serializeEntry)).data ++ ']' :: rest))
            = none := by
        simp [dropLit]
      simp only [parseEntriesAux, parseEntry_serialize]
      rw [hnone, dropLit_prefix]
      simp only [ih e2 rest f hf']

theorem length_le_joinComma (l : List HistoryEntry) :
    l.length ≤ (joinComma (l.map serializeEntry)).data.length + 1 := by
  induction l with
  | nil => simp [joinComma]
  | cons e l' ih =>
    cases l' with
    | nil => simp [joinComma]
    | cons e2 l'' =>
      have hjoin : (joinComma ((e :: e2 :: l'').map serializeEntry)).data =
          (serializeEntry e).data ++ (", ".data ++
            (joinComma ((e2 :: l'').map serializeEntry)).data) := by
        simp only [List.map_cons, joinComma, strData_append, List.append_assoc]
      rw [hjoin]
      have h2 : (", ".data).length = 2 := rfl
      simp only [List.length_cons, List.length_append] at ih ⊢
      omega

theorem nine_le_serializeEntry (e : HistoryEntry) :
    9 ≤ (serializeEntry e).data.length := by
  have h9 : ("\x7b\"role\": ".data).length = 9 := rfl
  simp only [serializeEntry, quoteString, strData_append, List.length_append, h9]
  omega

theorem one_le_joinComma (e : HistoryEntry) (l : List HistoryEntry) :
    1 ≤ (joinComma ((e :: l).map serializeEntry)).data.length := by
  have h9 := nine_le_serializeEntry e
  cases l with
  | nil =>
    have hj : joinComma ([e].map serializeEntry) = serializeEntry e := rfl
    rw [hj]
    omega
  | cons e2 l' =>
    have hjoin : (joinComma ((e :: e2 :: l').map serializeEntry)).data =
        (serializeEntry e).data ++ (", ".data ++
          (joinComma ((e2 :: l').map serializeEntry)).data) := by
      simp only [List.map_cons, joinComma, strData_append, List.append_assoc]
    rw [hjoin]
    simp only [List.length_append]
    omega

theorem parseHistory_serializeHistory (h : List HistoryEntry) :
    parseHistory (serializeHistory h) = Except.ok h := by
  cases h with
  | nil => rfl
  | cons e h' =>
    have hdata : (serializeHistory (e :: h')).data =
        "[".data ++ ((joinComma ((e :: h').map serializeEntry)).data ++ ']' :: []) := by
      simp only [serializeHistory, strData_append, List.append_assoc]
    have hone := one_le_joinComma e h'
    have hne : (joinComma ((e :: h').map serializeEntry)).data ++ ']' :: [] ≠ "]".data := by
      intro hcontra
      have hlen := congrArg List.length hcontra
      have h2 : ("]".data).length = 1 := rfl
      simp only [List.length_append, List.length_cons, List.length_nil, h2] at hlen
      omega
    have hfuel : (e :: h').length ≤
        ((joinComma ((e :: h').map serializeEntry)).data ++ ']' :: []).length := by
      have h1 := length_le_joinComma (e :: h')
      simp only [List.length_cons] at h1
      simp only [List.length_append, List.length_cons, List.length_nil]
      omega
    unfold parseHistory
    rw [hdata, dropLit_prefix]
    simp only [if_neg hne]
    rw [parseEntriesAux_serialize h' e [] _ hfuel]
    rfl

/-! ## Registry lemmas -/

theorem find_insert_self (reg : Registry) (name : String) (inst : BotInstance)
    (h : Registry.find reg name = none) :
    Registry.find (Registry.insert reg name inst) name = some inst := by
  induction reg with
  | nil => simp [Registry.insert, Registry.find]
  | cons kv rest ih =>
    obtain ⟨k, v⟩ := kv
    by_cases hk : k = name
    · rw [Registry.find, if_pos hk] at h
      exact absurd h (by simp)
    · rw [Registry.find, if_neg hk] at h
      show Registry.find ((k, v) :: (rest ++ [(name, inst)])) name = some inst
      rw [Registry.find, if_neg hk]
      exact ih h

theorem find_insert_other (reg : Registry) (name m : String) (inst : BotInstance)
    (h : m ≠ name) :
    Registry.find (Registry.insert reg name inst) m = Registry.find reg m := by
  have hnm : ¬ (name = m) := fun hh => h hh.symm
  induction reg with
  | nil => simp [Registry.insert, Registry.find, hnm]
  | cons kv rest ih =>
    obtain ⟨k, v⟩ := kv
    show Registry.find ((k, v) :: (rest ++ [(name, inst)])) m = _
    by_cases hk : k = m
    · rw [Registry.find, if_pos hk, Registry.find, if_pos hk]
    · rw [Registry.find, if_neg hk, Registry.find, if_neg hk]
      exact ih

/-! ## Chat step equations -/

theorem chat_none_eq (inst : BotInstance) (p : String)
    (hp : inst.pipeline = none) :
    inst.chat p = (Except.ok fallbackReply,
      { inst with
        history := inst.history ++ [⟨Role.user, p⟩, ⟨Role.bot, fallbackReply⟩] }) := by
  unfold BotInstance.chat
  rw [hp]
  simp [List.append_assoc]

theorem chat_some_error_eq (inst : BotInstance) (p : String) (pl : Pipeline)
    (e : String) (hp : inst.pipeline = some pl)
    (hres : pl (fullPrompt inst.cfg.persona p) inst.cfg.max_length = Except.error e) :
    inst.chat p = (Except.error e,
      { inst with history := inst.history ++ [⟨Role.user, p⟩] }) := by
  unfold BotInstance.chat
  rw [hp]
  simp [hres]

theorem chat_some_ok_eq (inst : BotInstance) (p : String) (pl : Pipeline)
    (txt : String) (hp : inst.pipeline = some pl)
    (hres : pl (fullPrompt inst.cfg.persona p) inst.cfg.max_length = Except.ok txt) :
    inst.chat p = (Except.ok txt.trim,
      { inst with
        history := inst.history ++ [⟨Role.user, p⟩, ⟨Role.bot, txt.trim⟩] }) := by
  unfold BotInstance.chat
  rw [hp]
  simp [hres, List.append_assoc]

theorem chat_ok_inv (inst : BotInstance) (p r : String) (inst' : BotInstance)
    (h : inst.chat p = (Except.ok r, inst')) :
    inst' = { inst with
      history := inst.history ++ [⟨Role.user, p⟩, ⟨Role.bot, r⟩] } := by
  cases hp : inst.pipeline with
  | none =>
    rw [chat_none_eq inst p hp] at h
    simp only [Prod.mk.injEq, Except.ok.injEq] at h
    rw [← h.2, h.1, hp]
  | some pl =>
    cases hres : pl (fullPrompt inst.cfg.persona p) inst.cfg.max_length with
    | error e =>
      rw [chat_some_error_eq inst p pl e hp hres] at h
      simp at h
    | ok txt =>
      rw [chat_some_ok_eq inst p pl txt hp hres] at h
      simp only [Prod.mk.injEq, Except.ok.injEq] at h
      rw [← h.2, h.1, hp]

theorem turnList_length (l : List (String × String)) :
    (turnList l).length = 2 * l.length := by
  induction l with
  | nil => rfl
  | cons pr rest ih =>
    obtain ⟨p, r⟩ := pr
    simp [turnList, ih]
    omega

theorem runChats_history (prompts : List String) :
    ∀ (inst : BotInstance) (replies : List String) (inst' : BotInstance),
      runChats inst prompts = some (replies, inst') →
      inst'.history = inst.history ++ turnList (prompts.zip replies) ∧
      replies.length = prompts.length := by
  induction prompts with
  | nil =>
    intro inst replies inst' h
    simp only [runChats, Option.some.injEq, Prod.mk.injEq] at h
    obtain ⟨h1, h2⟩ := h
    subst h1
    subst h2
    simp [turnList]
  | cons p ps ih =>
    intro inst replies inst' h
    rw [runChats] at h
    rcases hc : inst.chat p with ⟨res, inst1⟩
    rw [hc] at h
    cases res with
    | error e => simp at h
    | ok r =>
      simp only [] at h
      cases hr : runChats inst1 ps with
      | none => rw [hr] at h; simp at h
      | some pr =>
        obtain ⟨rs, inst2⟩ := pr
        rw [hr] at h
        simp only [Option.some.injEq, Prod.mk.injEq] at h
        obtain ⟨h1, h2⟩ := h
        subst h1
        subst h2
        have hh := ih inst1 rs inst2 hr
        have hstep := chat_ok_inv inst p r inst1 hc
        constructor
        · rw [hh.1, hstep]
          simp [turnList, List.append_assoc]
          rfl
        · simp [hh.2]

/-! ## Handler equations -/

theorem create_bot_empty_eq (post : RemotePost) (lm : Option Pipeline)
    (reg : Registry) (fs : LocalFS) (req : CreateReq)
    (h0 : (pyStrip req.name) = "") :
    create_bot post lm reg fs req =
      (Except.error (ApiError.http 400 "name required"), reg, fs) := by
  simp [create_bot, h0]

theorem create_bot_exists_eq (post : RemotePost) (lm : Option Pipeline)
    (reg : Registry) (fs : LocalFS) (req : CreateReq)
    (h0 : (pyStrip req.name) ≠ "")
    (h1 : (Registry.find reg (pyStrip req.name)).isSome = true) :
    create_bot post lm reg fs req =
      (Except.error (ApiError.http 400 "bot already exists"), reg, fs) := by
  simp [create_bot, h0, h1]

theorem create_bot_loadfail_eq (post : RemotePost) (lm : Option Pipeline)
    (reg : Registry) (fs : LocalFS) (req : CreateReq) (e : String)
    (h0 : (pyStrip req.name) ≠ "")
    (h2 : Registry.find reg (pyStrip req.name) = none)
    (h3 : load_local_history fs (pyStrip req.name) = Except.error e) :
    create_bot post lm reg fs req = (Except.error (ApiError.exn e), reg, fs) := by
  simp [create_bot, h0, h2, h3]

theorem create_bot_success_eq (post : RemotePost) (lm : Option Pipeline)
    (reg : Registry) (fs : LocalFS) (req : CreateReq) (hist : List HistoryEntry)
    (h0 : (pyStrip req.name) ≠ "")
    (h2 : Registry.find reg (pyStrip req.name) = none)
    (h3 : load_local_history fs (pyStrip req.name) = Except.ok hist) :
    create_bot post lm reg fs req =
      (Except.ok ⟨(pyStrip req.name),
          (save_bot_to_memory post fs ⟨(pyStrip req.name), req.persona, req.max_length⟩).1.1,
          (save_bot_to_memory post fs ⟨(pyStrip req.name), req.persona, req.max_length⟩).1.2⟩,
        Registry.insert reg (pyStrip req.name)
          { cfg := ⟨(pyStrip req.name), req.persona, req.max_length⟩,
            pipeline := lm, history := hist },
        (save_bot_to_memory post fs ⟨(pyStrip req.name), req.persona, req.max_length⟩).2) := by
  simp [create_bot, h0, h2, h3, BotInstance.init]

theorem save_bot_to_memory_error_eq (post : RemotePost) (fs : LocalFS)
    (cfg : BotConfig) (e : String)
    (h : post (cfg.name ++ ".bot.json") (serializeConfig cfg) = Except.error e) :
    save_bot_to_memory post fs cfg =
      ((false, e), fsWrite fs (configPath cfg.name) (serializeConfig cfg)) := by
  simp [save_bot_to_memory, h]

theorem deploy_registered_eq (get : RemoteGet) (lm : Option Pipeline)
    (reg : Registry) (fs : LocalFS) (name : String)
    (h : (Registry.find reg name).isSome = true) :
    deploy_bot get lm reg fs name =
      (Except.ok (DeployResp.already_deployed name), reg) := by
  simp [deploy_bot, h]

theorem deploy_loadfail_eq (get : RemoteGet) (lm : Option Pipeline)
    (reg : Registry) (fs : LocalFS) (name : String) (cfg : BotConfig)
    (err : Option String) (e : String)
    (h1 : Registry.find reg name = none)
    (h2 : load_bot_from_memory get name = (some cfg, err))
    (h3 : load_local_history fs name = Except.error e) :
    deploy_bot get lm reg fs name = (Except.error (ApiError.exn e), reg) := by
  simp [deploy_bot, h1, h2, h3]

theorem bot_chat_ok_eq (push : RemotePost) (reg : Registry) (fs : LocalFS)
    (name msg reply : String) (inst inst1 : BotInstance)
    (hm : msg ≠ "") (hfind : Registry.find reg name = some inst)
    (hc : inst.chat msg = (Except.ok reply, inst1)) :
    bot_chat push reg fs name (some msg) =
      (Except.ok reply, Registry.update reg name inst1,
        fsWrite (persist_local_history fs name inst1.get_history) (historyPath name)
          (serializeHistory inst1.get_history)) := by
  simp only [bot_chat, if_neg hm, hfind, hc]
  cases push (name ++ ".history.json") (serializeHistory inst1.get_history) <;> rfl

theorem bot_chat_chaterr_eq (push : RemotePost) (reg : Registry) (fs : LocalFS)
    (name msg e : String) (inst inst1 : BotInstance)
    (hm : msg ≠ "") (hfind : Registry.find reg name = some inst)
    (hc : inst.chat msg = (Except.error e, inst1)) :
    bot_chat push reg fs name (some msg) =
      (Except.error (ApiError.exn e), Registry.update reg name inst1, fs) := by
  simp only [bot_chat, if_neg hm, hfind, hc]

theorem bot_chat_push_irrelevant (push1 push2 : RemotePost) (reg : Registry)
    (fs : LocalFS) (name : String) (message : Option String) :
    bot_chat push1 reg fs name message = bot_chat push2 reg fs name message := by
  cases message with
  | none => rfl
  | some msg =>
    by_cases hm : msg = ""
    · subst hm; rfl
    · cases hfind : Registry.find reg name with
      | none => simp only [bot_chat, if_neg hm, hfind]
      | some inst =>
        rcases hc : inst.chat msg with ⟨res, inst1⟩
        cases res with
        | error e =>
          rw [bot_chat_chaterr_eq push1 reg fs name msg e inst inst1 hm hfind hc,
            bot_chat_chaterr_eq push2 reg fs name msg e inst inst1 hm hfind hc]
        | ok reply =>
          rw [bot_chat_ok_eq push1 reg fs name msg reply inst inst1 hm hfind hc,
            bot_chat_ok_eq push2 reg fs name msg reply inst inst1 hm hfind hc]

/-! ## Inversion of a successful create -/

theorem create_bot_ok_inv (post : RemotePost) (lm : Option Pipeline)
    (reg : Registry) (fs : LocalFS) (req : CreateReq) (r : CreateResp)
    (reg1 : Registry) (fs1 : LocalFS)
    (h : create_bot post lm reg fs req = (Except.ok r, reg1, fs1)) :
    pyStrip req.name ≠ "" ∧ Registry.find reg (pyStrip req.name) = none ∧
    ∃ hist, load_local_history fs (pyStrip req.name) = Except.ok hist ∧
      reg1 = Registry.insert reg (pyStrip req.name)
        { cfg := ⟨pyStrip req.name, req.persona, req.max_length⟩,
          pipeline := lm, history := hist } := by
  by_cases h0 : pyStrip req.name = ""
  · rw [create_bot_empty_eq post lm reg fs req h0] at h
    simp at h
  · by_cases h1 : (Registry.find reg (pyStrip req.name)).isSome = true
    · rw [create_bot_exists_eq post lm reg fs req h0 h1] at h
      simp at h
    · have h2 : Registry.find reg (pyStrip req.name) = none := by
        rcases hf : Registry.find reg (pyStrip req.name) with _ | v
        · rfl
        · rw [hf] at h1
          simp at h1
      cases h3 : load_local_history fs (pyStrip req.name) with
      | error e =>
        rw [create_bot_loadfail_eq post lm reg fs req e h0 h2 h3] at h
        simp at h
      | ok hist =>
        rw [create_bot_success_eq post lm reg fs req hist h0 h2 h3] at h
        simp only [Prod.mk.injEq, Except.ok.injEq] at h
        exact ⟨h0, h2, hist, rfl, h.2.1.symm⟩

/-! ## Claim theorems -/

/-- Claim C1, counterexample: `chat` does raise to its caller when the bound
Generation Capability's invocation throws — here a pipeline raising
"cuda out of memory" makes `chat` return that error rather than the fallback
reply, so the claim "chat never raises; any invocation failure is converted
to the fallback" is false on the code. -/
theorem chat_raises_on_pipeline_exception_cex :
    (BotInstance.chat
        ⟨⟨"b", "p", 8⟩, some (fun _ _ => Except.error "cuda out of memory"), []⟩
        "hi").1
      = Except.error "cuda out of memory" := rfl

/-- Claim C1, amended: `chat` converts *unavailability* (no pipeline bound,
which includes a failed model load) into the fixed fallback reply and does
not raise in that case; but an exception raised by a bound pipeline's
*invocation* is not caught — it propagates to `chat`'s caller, with the user
entry already appended to the history. -/
theorem chat_fallback_on_unavailable_raise_propagates (inst : BotInstance)
    (prompt : String) :
    (inst.pipeline = none → (inst.chat prompt).1 = Except.ok fallbackReply)
    ∧ (∀ (pl : Pipeline) (e : String), inst.pipeline = some pl →
        pl (fullPrompt inst.cfg.persona prompt) inst.cfg.max_length = Except.error e →
        inst.chat prompt = (Except.error e,
          { inst with history := inst.history ++ [⟨Role.user, prompt⟩] })) := by
  constructor
  · intro hp
    rw [chat_none_eq inst prompt hp]
  · intro pl e hp hres
    exact chat_some_error_eq inst prompt pl e hp hres

/-- Claim C1, witness for the amended theorem at concrete inputs. -/
theorem chat_fallback_on_unavailable_raise_propagates_witness :
    (BotInstance.chat ⟨⟨"b", "p", 8⟩, none, []⟩ "hi").1 = Except.ok fallbackReply
    ∧ BotInstance.chat ⟨⟨"b", "p", 8⟩, some (fun _ _ => Except.error "boom"), []⟩ "hi"
      = (Except.error "boom",
          ⟨⟨"b", "p", 8⟩, some (fun _ _ => Except.error "boom"), [⟨Role.user, "hi"⟩]⟩) :=
  ⟨(chat_fallback_on_unavailable_raise_propagates ⟨⟨"b", "p", 8⟩, none, []⟩ "hi").1 rfl,
   (chat_fallback_on_unavailable_raise_propagates
      ⟨⟨"b", "p", 8⟩, some (fun _ _ => Except.error "boom"), []⟩ "hi").2
      (fun _ _ => Except.error "boom") "boom" rfl rfl⟩

/-- Claim C2: `create_bot` on an already-registered (valid, i.e. non-empty
after stripping) name fails with the AlreadyExists error (HTTP 400
"bot already exists") and leaves the registry — hence the existing agent's
config and history — and the local store untouched.  The membership check
and insert are one critical section under `bots_lock`, modelled here by the
whole handler being a single atomic step on the state. -/
theorem create_already_exists_no_mutation (post : RemotePost)
    (lm : Option Pipeline) (reg : Registry) (fs : LocalFS) (req : CreateReq)
    (hvalid : pyStrip req.name ≠ "")
    (hreg : (Registry.find reg (pyStrip req.name)).isSome = true) :
    create_bot post lm reg fs req =
      (Except.error (ApiError.http 400 "bot already exists"), reg, fs) :=
  create_bot_exists_eq post lm reg fs req hvalid hreg

/-- Claim C2, witness: a second create of "x" is rejected and changes
nothing. -/
theorem create_already_exists_no_mutation_witness :
    create_bot (fun _ _ => Except.ok (true, "ok")) none
        [("x", ⟨⟨"x", "p", 8⟩, none, []⟩)] [] ⟨"x", "p2", 9⟩ =
      (Except.error (ApiError.http 400 "bot already exists"),
        [("x", ⟨⟨"x", "p", 8⟩, none, []⟩)], []) :=
  create_already_exists_no_mutation _ _ _ _ _ (by decide) rfl

/-- Claim C3: with no Generation Capability bound, `chat` still succeeds,
returning exactly the fixed fallback string, and appends exactly two history
entries in order: the user entry with the prompt, then the bot entry with
the fallback reply. -/
theorem chat_unavailable_degraded_success (inst : BotInstance) (prompt : String)
    (h : inst.pipeline = none) :
    inst.chat prompt = (Except.ok fallbackReply,
      { inst with history := inst.history ++
          [⟨Role.user, prompt⟩, ⟨Role.bot, fallbackReply⟩] }) :=
  chat_none_eq inst prompt h

/-- Claim C3, witness at a concrete pipeline-less instance. -/
theorem chat_unavailable_degraded_success_witness :
    BotInstance.chat ⟨⟨"b", "p", 8⟩, none, []⟩ "hi" =
      (Except.ok fallbackReply,
        ⟨⟨"b", "p", 8⟩, none, [⟨Role.user, "hi"⟩, ⟨Role.bot, fallbackReply⟩]⟩) :=
  chat_unavailable_degraded_success ⟨⟨"b", "p", 8⟩, none, []⟩ "hi" rfl

/-- Claim C4, counterexample: for a bot agent whose history was seeded with
one entry (as `create_bot`/`deploy_bot` do from a pre-existing local blob),
one successful chat call leaves 3 = 1 + 2 entries, not 2·1: the claim's
"exactly 2N entries for every bot agent" is false on the code. -/
theorem get_history_exactly_2N_cex :
    (((BotInstance.chat ⟨⟨"b", "p", 8⟩, none, [⟨Role.bot, "seeded"⟩]⟩ "hi").2.get_history.length
      = 2 * 1)) = False :=
  eq_false (by decide)

/-- Claim C4, amended: after N sequential successful chat calls the history
is the agent's initial history followed by exactly 2N new entries in call
order — for call i the user entry with that call's prompt immediately
followed by the bot entry with that call's reply — so it has exactly
2N entries whenever the agent started with an empty history. -/
theorem get_history_after_chats (inst : BotInstance)
    (prompts replies : List String) (inst' : BotInstance)
    (h : runChats inst prompts = some (replies, inst')) :
    inst'.get_history = inst.get_history ++ turnList (prompts.zip replies)
    ∧ replies.length = prompts.length
    ∧ inst'.get_history.length = inst.get_history.length + 2 * prompts.length := by
  have hh := runChats_history prompts inst replies inst' h
  refine ⟨hh.1, hh.2, ?_⟩
  have h3 := congrArg List.length hh.1
  simp only [List.length_append, turnList_length, List.length_zip, hh.2,
    Nat.min_self] at h3
  exact h3

/-- Claim C4, witness: two chats on a fresh (empty-history) agent yield
exactly 4 = 2·2 entries in call order. -/
theorem get_history_after_chats_witness :
    (⟨⟨"b", "p", 8⟩, none,
        [⟨Role.user, "a"⟩, ⟨Role.bot, fallbackReply⟩,
         ⟨Role.user, "c"⟩, ⟨Role.bot, fallbackReply⟩]⟩ : BotInstance).get_history
      = (⟨⟨"b", "p", 8⟩, none, []⟩ : BotInstance).get_history
          ++ turnList ((["a", "c"]).zip [fallbackReply, fallbackReply])
    ∧ ([fallbackReply, fallbackReply] : List String).length = (["a", "c"] : List String).length
    ∧ (⟨⟨"b", "p", 8⟩, none,
        [⟨Role.user, "a"⟩, ⟨Role.bot, fallbackReply⟩,
         ⟨Role.user, "c"⟩, ⟨Role.bot, fallbackReply⟩]⟩ : BotInstance).get_history.length
      = (⟨⟨"b", "p", 8⟩, none, []⟩ : BotInstance).get_history.length + 2 * (["a", "c"] : List String).length :=
  get_history_after_chats ⟨⟨"b", "p", 8⟩, none, []⟩ ["a", "c"]
    [fallbackReply, fallbackReply]
    ⟨⟨"b", "p", 8⟩, none,
      [⟨Role.user, "a"⟩, ⟨Role.bot, fallbackReply⟩,
       ⟨Role.user, "c"⟩, ⟨Role.bot, fallbackReply⟩]⟩ rfl

/-- Claim C5: `deploy_bot` on an already-registered name short-circuits to
the idempotent success response before any remote call: the result and the
unchanged registry are the same for *every* remote-store oracle (so the
Remote Store is not consulted), no second agent is constructed, and the
existing agent is untouched.  The local store argument is likewise only
read, never written, by `deploy_bot`. -/
theorem deploy_idempotent_on_registered (get : RemoteGet) (lm : Option Pipeline)
    (reg : Registry) (fs : LocalFS) (name : String)
    (hreg : (Registry.find reg name).isSome = true) :
    deploy_bot get lm reg fs name =
      (Except.ok (DeployResp.already_deployed name), reg) :=
  deploy_registered_eq get lm reg fs name hreg

/-- Claim C5, witness: deploying registered "x" with an unreachable store
still answers already_deployed and keeps the registry intact. -/
theorem deploy_idempotent_on_registered_witness :
    deploy_bot (fun _ => Except.error "unreachable") none
        [("x", ⟨⟨"x", "p", 8⟩, none, []⟩)] [] "x" =
      (Except.ok (DeployResp.already_deployed "x"),
        [("x", ⟨⟨"x", "p", 8⟩, none, []⟩)]) :=
  deploy_idempotent_on_registered _ _ _ _ _ rfl

/-- Claim C6: `load_local_history` returns the empty sequence when no blob
exists for the name, and surfaces the parse failure (the propagated
`json.load` exception, CorruptData) — rather than silently returning an
empty history — when a blob exists but cannot be parsed. -/
theorem load_history_missing_empty_corrupt_raises (fs : LocalFS) (name : String) :
    (fsLookup fs (historyPath name) = none →
      load_local_history fs name = Except.ok [])
    ∧ (∀ (content e : String), fsLookup fs (historyPath name) = some content →
        parseHistory content = Except.error e →
        load_local_history fs name = Except.error e) := by
  constructor
  · intro h
    simp [load_local_history, h]
  · intro content e h1 h2
    simp [load_local_history, h1, h2]

/-- Claim C6, witness: an absent blob loads as `[]`; an unparsable blob
raises CorruptData. -/
theorem load_history_missing_empty_corrupt_raises_witness :
    load_local_history [] "w" = Except.ok []
    ∧ load_local_history [(historyPath "w", "not json")] "w" =
        Except.error "CorruptData" :=
  ⟨(load_history_missing_empty_corrupt_raises [] "w").1 rfl,
   (load_history_missing_empty_corrupt_raises [(historyPath "w", "not json")] "w").2
     "not json" "CorruptData" rfl rfl⟩

/-- Claim C7: remote-store failures never fail the primary operation.
(1) `save_bot_to_memory` is total (it cannot raise — its type returns an
`(ok, detail)` pair) and turns a raising upload into `(false, detail)`;
(2) `create_bot` still succeeds locally when the config upload raises,
registering the bot and reporting `saved_to_memory = false` with the
diagnostic, never rolling back; (3) `bot_chat`'s post-reply history push is
try/except-passed: its entire outcome — reply, registry and local store —
is identical for any two push oracles, so a failing push is silently
skipped. -/
theorem remote_failures_never_fail_primary :
    (∀ (post : RemotePost) (fs : LocalFS) (cfg : BotConfig) (e : String),
        post (cfg.name ++ ".bot.json") (serializeConfig cfg) = Except.error e →
        (save_bot_to_memory post fs cfg).1 = (false, e))
    ∧ (∀ (post : RemotePost) (lm : Option Pipeline) (reg : Registry)
          (fs : LocalFS) (req : CreateReq) (hist : List HistoryEntry) (e : String),
        pyStrip req.name ≠ "" →
        Registry.find reg (pyStrip req.name) = none →
        load_local_history fs (pyStrip req.name) = Except.ok hist →
        post (pyStrip req.name ++ ".bot.json")
            (serializeConfig ⟨pyStrip req.name, req.persona, req.max_length⟩) =
          Except.error e →
        create_bot post lm reg fs req =
          (Except.ok ⟨pyStrip req.name, false, e⟩,
            Registry.insert reg (pyStrip req.name)
              { cfg := ⟨pyStrip req.name, req.persona, req.max_length⟩,
                pipeline := lm, history := hist },
            fsWrite fs (configPath (pyStrip req.name))
              (serializeConfig ⟨pyStrip req.name, req.persona, req.max_length⟩)))
    ∧ (∀ (push1 push2 : RemotePost) (reg : Registry) (fs : LocalFS)
          (name : String) (message : Option String),
        bot_chat push1 reg fs name message = bot_chat push2 reg fs name message) := by
  refine ⟨?_, ?_, bot_chat_push_irrelevant⟩
  · intro post fs cfg e h
    rw [save_bot_to_memory_error_eq post fs cfg e h]
  · intro post lm reg fs req hist e h0 h2 h3 hpost
    rw [create_bot_success_eq post lm reg fs req hist h0 h2 h3,
      save_bot_to_memory_error_eq post fs _ e hpost]

/-- Claim C7, witness: a raising store leaves `save_bot_to_memory` with
`(false, detail)`; create still registers the bot and reports the failure;
`bot_chat` answers identically under a raising and a healthy push oracle. -/
theorem remote_failures_never_fail_primary_witness :
    (save_bot_to_memory (fun _ _ => Except.error "netdown") [] ⟨"x", "p", 8⟩).1
      = (false, "netdown")
    ∧ create_bot (fun _ _ => Except.error "netdown") none [] [] ⟨"x", "p", 8⟩ =
        (Except.ok ⟨"x", false, "netdown"⟩,
          [("x", ⟨⟨"x", "p", 8⟩, none, []⟩)],
          [(configPath "x", serializeConfig ⟨"x", "p", 8⟩)])
    ∧ bot_chat (fun _ _ => Except.error "netdown")
          [("x", ⟨⟨"x", "p", 8⟩, none, []⟩)] [] "x" (some "hi")
        = bot_chat (fun _ _ => Except.ok (true, "ok"))
          [("x", ⟨⟨"x", "p", 8⟩, none, []⟩)] [] "x" (some "hi") :=
  ⟨remote_failures_never_fail_primary.1 _ [] ⟨"x", "p", 8⟩ "netdown" rfl,
   remote_failures_never_fail_primary.2.1 _ none [] [] ⟨"x", "p", 8⟩ [] "netdown"
     (by decide) rfl rfl rfl,
   remote_failures_never_fail_primary.2.2 _ _ _ _ "x" (some "hi")⟩

/-- Claim C8: round-trip — persisting any history for a name with
`persist_local_history` and loading it back with `load_local_history` for
the same name yields exactly the same ordered sequence of entries. -/
theorem history_roundtrip (fs : LocalFS) (name : String)
    (history : List HistoryEntry) :
    load_local_history (persist_local_history fs name history) name =
      Except.ok history := by
  unfold persist_local_history load_local_history fsWrite
  have h1 : fsLookup ((historyPath name, serializeHistory history) :: fs)
      (historyPath name) = some (serializeHistory history) := by
    rw [fsLookup, if_pos rfl]
  rw [h1]
  exact parseHistory_serializeHistory history

/-- Claim C9: `create_bot` registers under the whitespace-stripped name:
(a) a whitespace-only name is rejected as an empty name with no state
change; (b) two creates whose names differ only by surrounding whitespace
collide — the second fails with AlreadyExists; (c) after a successful
create the stripped name is registered, while lookups use the raw name as
given — if the unstripped name differs and is not otherwise registered,
`bot_history` on it answers 404 "bot not deployed". -/
theorem create_strips_name_lookups_do_not :
    (∀ (post : RemotePost) (lm : Option Pipeline) (reg : Registry)
        (fs : LocalFS) (req : CreateReq), pyStrip req.name = "" →
        create_bot post lm reg fs req =
          (Except.error (ApiError.http 400 "name required"), reg, fs))
    ∧ (∀ (post1 post2 : RemotePost) (lm1 lm2 : Option Pipeline)
          (reg : Registry) (fs : LocalFS) (req1 req2 : CreateReq)
          (r : CreateResp) (reg1 : Registry) (fs1 : LocalFS),
        create_bot post1 lm1 reg fs req1 = (Except.ok r, reg1, fs1) →
        pyStrip req2.name = pyStrip req1.name →
        (create_bot post2 lm2 reg1 fs1 req2).1 =
          Except.error (ApiError.http 400 "bot already exists"))
    ∧ (∀ (post : RemotePost) (lm : Option Pipeline) (reg : Registry)
          (fs : LocalFS) (req : CreateReq) (r : CreateResp) (reg1 : Registry)
          (fs1 : LocalFS),
        create_bot post lm reg fs req = (Except.ok r, reg1, fs1) →
        (Registry.find reg1 (pyStrip req.name)).isSome = true
        ∧ (Registry.find reg req.name = none → req.name ≠ pyStrip req.name →
            Registry.find reg1 req.name = none
            ∧ bot_history reg1 req.name =
                Except.error (ApiError.http 404 "bot not deployed"))) := by
  refine ⟨?_, ?_, ?_⟩
  · intro post lm reg fs req h0
    exact create_bot_empty_eq post lm reg fs req h0
  · intro post1 post2 lm1 lm2 reg fs req1 req2 r reg1 fs1 h1 hname
    obtain ⟨h0, h2, hist, h3, hreg1⟩ :=
      create_bot_ok_inv post1 lm1 reg fs req1 r reg1 fs1 h1
    have hfind : (Registry.find reg1 (pyStrip req2.name)).isSome = true := by
      rw [hname, hreg1, find_insert_self reg (pyStrip req1.name) _ h2]
      rfl
    have h0' : pyStrip req2.name ≠ "" := by
      rw [hname]
      exact h0
    rw [create_bot_exists_eq post2 lm2 reg1 fs1 req2 h0' hfind]
  · intro post lm reg fs req r reg1 fs1 h
    obtain ⟨h0, h2, hist, h3, hreg1⟩ :=
      create_bot_ok_inv post lm reg fs req r reg1 fs1 h
    constructor
    · rw [hreg1, find_insert_self reg (pyStrip req.name) _ h2]
      rfl
    · intro hraw hne
      have hfr : Registry.find reg1 req.name = none := by
        rw [hreg1, find_insert_other reg (pyStrip req.name) req.name _ hne, hraw]
      exact ⟨hfr, by simp [bot_history, hfr]⟩

/-- Claim C9, witness: creating "  " is rejected; after creating " x "
(registered as "x"), creating "x " collides, `bot_history` of "x" exists
while `bot_history` of the raw " x " is 404. -/
theorem create_strips_name_lookups_do_not_witness :
    create_bot (fun _ _ => Except.ok (true, "ok")) none [] [] ⟨"  ", "p", 8⟩ =
      (Except.error (ApiError.http 400 "name required"), [], [])
    ∧ (create_bot (fun _ _ => Except.ok (true, "ok")) none
        [("x", ⟨⟨"x", "p", 8⟩, none, []⟩)]
        [(configPath "x", serializeConfig ⟨"x", "p", 8⟩)] ⟨"x ", "q", 9⟩).1 =
        Except.error (ApiError.http 400 "bot already exists")
    ∧ ((Registry.find [("x", ⟨⟨"x", "p", 8⟩, none, []⟩)] "x").isSome = true
        ∧ (Registry.find [("x", ⟨⟨"x", "p", 8⟩, none, []⟩)] " x " = none
            ∧ bot_history [("x", ⟨⟨"x", "p", 8⟩, none, []⟩)] " x " =
                Except.error (ApiError.http 404 "bot not deployed"))) :=
  ⟨create_strips_name_lookups_do_not.1 _ none [] [] ⟨"  ", "p", 8⟩ (by decide),
   create_strips_name_lookups_do_not.2.1 (fun _ _ => Except.ok (true, "ok"))
     (fun _ _ => Except.ok (true, "ok")) none none [] [] ⟨" x ", "p", 8⟩
     ⟨"x ", "q", 9⟩ _ _ _ rfl (by decide),
   (create_strips_name_lookups_do_not.2.2 (fun _ _ => Except.ok (true, "ok"))
     none [] [] ⟨" x ", "p", 8⟩ _ _ _ rfl).1,
   (create_strips_name_lookups_do_not.2.2 (fun _ _ => Except.ok (true, "ok"))
     none [] [] ⟨" x ", "p", 8⟩ _ _ _ rfl).2 rfl (by decide)⟩

/-- Claim C10: if loading the local history blob raises after the agent
instance is constructed, neither `create_bot` nor `deploy_bot` inserts the
name: the exception propagates and the registry (and, for create, the local
store) is exactly what it was — no partially-initialized bot becomes
reachable. -/
theorem history_load_failure_registry_unchanged :
    (∀ (post : RemotePost) (lm : Option Pipeline) (reg : Registry)
        (fs : LocalFS) (req : CreateReq) (e : String),
        pyStrip req.name ≠ "" →
        Registry.find reg (pyStrip req.name) = none →
        load_local_history fs (pyStrip req.name) = Except.error e →
        create_bot post lm reg fs req = (Except.error (ApiError.exn e), reg, fs))
    ∧ (∀ (get : RemoteGet) (lm : Option Pipeline) (reg : Registry)
          (fs : LocalFS) (name : String) (cfg : BotConfig)
          (err : Option String) (e : String),
        Registry.find reg name = none →
        load_bot_from_memory get name = (some cfg, err) →
        load_local_history fs name = Except.error e →
        deploy_bot get lm reg fs name = (Except.error (ApiError.exn e), reg)) :=
  ⟨fun post lm reg fs req e h0 h2 h3 =>
      create_bot_loadfail_eq post lm reg fs req e h0 h2 h3,
   fun get lm reg fs name cfg err e h1 h2 h3 =>
      deploy_loadfail_eq get lm reg fs name cfg err e h1 h2 h3⟩

/-- Claim C10, witness: with a corrupt local blob for "w", both create and
deploy (the latter with the config available remotely) raise and leave the
registry empty. -/
theorem history_load_failure_registry_unchanged_witness :
    create_bot (fun _ _ => Except.ok (true, "ok")) none []
        [(historyPath "w", "oops")] ⟨"w", "p", 7⟩ =
      (Except.error (ApiError.exn "CorruptData"), [], [(historyPath "w", "oops")])
    ∧ deploy_bot (fun _ => Except.ok (200, serializeConfig ⟨"w", "p", 7⟩)) none []
        [(historyPath "w", "oops")] "w" =
      (Except.error (ApiError.exn "CorruptData"), []) :=
  ⟨history_load_failure_registry_unchanged.1 _ none [] _ ⟨"w", "p", 7⟩
      "CorruptData" (by decide) rfl rfl,
   history_load_failure_registry_unchanged.2 _ none [] _ "w" ⟨"w", "p", 7⟩
      none "CorruptData" rfl rfl rfl⟩
